import Mathlib

/-!
Verification development for the zkllm repository (GameManager / Skirmish AI
Bridge infrastructure for LLM-driven Zero-K play).

Shallow embedding of:
* `app/src/wake-module.ts` — the `WakeModule` (agent-controlled event
  filtering: `shouldTrigger`, `handleToolCall`, debounce, timeout timer);
* `app/src/index.ts` and the lobby agent entry point — the required
  environment-variable check performed before the framework starts;
* `LuaUI/Widgets/agent_bootstrap.lua` — the bootstrap widget's
  `widget:GameStart` hand-off to the Bridge AI;
* `sai-bridge/data/AIOptions.lua` — the Bridge's `socket_path` option;
* the Engine Supervisor's write-directory preparation (modelled from the
  spec, the Rust sources not being in the snapshot; see `prepareWriteDir`).

Machine integers are modelled as `Nat` (all arithmetic involved — millisecond
clocks, list lengths — stays far below JavaScript's 2^53 exact-integer range,
so no wrap-around is reachable).
-/

namespace ZkSpec

/-! ### JSON values

Minimal JSON value model for the bodies of channel messages and tool inputs.
`JSON.parse` produces objects whose duplicate keys have already been collapsed
(last occurrence wins), so object fields are modelled as an association list
with unique keys and looked up by first match. -/

inductive Json where
  | null : Json
  | bool (b : Bool) : Json
  | num (n : Int) : Json
  | str (s : String) : Json
  | arr (elems : List Json) : Json
  | obj (fields : List (String × Json)) : Json

/-- JavaScript truthiness of a JSON value (`null`, `false`, `0`, `""` are
falsy; arrays and objects are always truthy). -/
def jsTruthy : Json → Bool
  | Json.null => false
  | Json.bool b => b
  | Json.num n => n != 0
  | Json.str s => s != ""
  | Json.arr _ => true
  | Json.obj _ => true

/-- Property access `parsed.k`: a field lookup on an object, `undefined`
(here `none`) on every other value. -/
def getField (j : Json) (k : String) : Option Json :=
  match j with
  | Json.obj fields => fields.lookup k
  | _ => none

/-- JavaScript strict equality `===` between a stored value and a freshly
parsed one. Primitive values compare by value; arrays and objects compare by
reference, and a value produced by a fresh `JSON.parse` is never
reference-equal to a previously stored one, so composite values compare
unequal here. -/
def jsStrictEq : Json → Json → Bool
  | Json.null, Json.null => true
  | Json.bool a, Json.bool b => a == b
  | Json.num a, Json.num b => a == b
  | Json.str a, Json.str b => a == b
  | _, _ => false

mutual

/-- `String(x)` as used by `Array.prototype.join`: strings verbatim, numbers
in decimal, `null`/`undefined` rendered empty, nested arrays joined with
`","`, plain objects as `"[object Object]"`. -/
def jsJoinElem : Json → String
  | Json.null => ""
  | Json.bool b => if b then "true" else "false"
  | Json.num n => toString n
  | Json.str s => s
  | Json.arr l => jsJoinList l
  | Json.obj _ => "[object Object]"

def jsJoinList : List Json → String
  | [] => ""
  | [x] => jsJoinElem x
  | x :: y :: xs => jsJoinElem x ++ "," ++ jsJoinList (y :: xs)

end

/-- `xs.join(', ')` on a JavaScript array. -/
def jsJoinComma : List Json → String
  | [] => ""
  | [x] => jsJoinElem x
  | x :: y :: xs => jsJoinElem x ++ ", " ++ jsJoinComma (y :: xs)

/-! ### WakeModule (`app/src/wake-module.ts`)

State of a `WakeModule` instance. The `setTimeout` handle stored in
`this.timer` is modelled by the absolute expiry instant of the armed timer
(`none` when no timer is running); times are `Date.now()`-style millisecond
instants. -/

structure WakeConditions where
  events : List Json
  timeout_s : Nat

structure WakeState where
  conditions : Option WakeConditions
  timerExpiry : Option Nat
  lastTriggerTime : Nat
  pendingWake : Bool

/-- `WakeModule.DEBOUNCE_MS`. -/
def DEBOUNCE_MS : Nat := 500

/-- Field initialisers of a fresh `WakeModule`. -/
def initialWakeState : WakeState :=
  { conditions := none, timerExpiry := none, lastTriggerTime := 0, pendingWake := false }

/-- The match test inside `shouldTrigger`: the regex pulls a JSON body out of
the message content (modelled as the `Option Json` result of that extraction
and `JSON.parse`; `none` covers "no braces" and parse failure), then
`parsed.type && this.conditions.events.includes(parsed.type)`. -/
def contentMatches (events : List Json) (body : Option Json) : Bool :=
  match body with
  | none => false
  | some parsed =>
    match getField parsed "type" with
    | none => false
    | some t => jsTruthy t && events.any (fun e => jsStrictEq e t)

/-- `WakeModule.shouldTrigger`, returning the boolean result and the updated
module state. `now` is `Date.now()`. -/
def shouldTrigger (st : WakeState) (body : Option Json) (now : Nat) : Bool × WakeState :=
  match st.conditions with
  | none => (true, st)
  | some conds =>
    if contentMatches conds.events body then
      if now - st.lastTriggerTime < DEBOUNCE_MS then
        (false, { st with pendingWake := true })
      else
        (true, { st with lastTriggerTime := now, pendingWake := false })
    else
      (false, st)

/-- The `set_conditions` tool input: `input.events` is the raw JSON value of
the `events` argument (`none` = absent), `input.timeout_s` the optional
timeout. -/
structure ToolInput where
  events : Option Json
  timeout_s : Option Nat

/-- `{ success, data | error }` result of `handleToolCall`. -/
structure ToolResult where
  success : Bool
  message : String

/-- The externally visible side effect scheduled by `handleToolCall`: either
nothing (validation failure), an immediate `setTimeout(0)` inference request
with the given reason, or the armed timeout timer (its expiry is recorded in
the state, its fire reason given here). -/
inductive WakeAction where
  | idle : WakeAction
  | immediateWake (reason : String) : WakeAction
  | armTimer (reason : String) : WakeAction

/-- The event pushed by the wake module via `ctx.pushEvent`. -/
structure InferenceRequest where
  type : String
  agentName : String
  reason : String
  source : String
  triggerInference : Bool

def wakeTimeoutEvent : InferenceRequest :=
  { type := "inference-request", agentName := "commander", reason := "wake-timeout",
    source := "wake", triggerInference := true }

def pendingWakeEvent : InferenceRequest :=
  { type := "inference-request", agentName := "commander", reason := "pending-wake",
    source := "wake", triggerInference := true }

/-- The validation at the top of `handleToolCall`:
`!input.events || !Array.isArray(input.events) || input.events.length === 0`.
Returns the element list when the argument is a truthy, non-empty array
(an empty JS array is truthy, so it is rejected by the length test, not the
truthiness test). -/
def validateEvents : Option Json → Option (List Json)
  | none => none
  | some v =>
    if jsTruthy v = false then none
    else
      match v with
      | Json.arr l => if l.length = 0 then none else some l
      | _ => none

/-- `WakeModule.handleToolCall` for the `set_conditions` tool, returning the
tool result, the updated state, and the scheduled side effect. `now` is the
instant of the call (used to turn the relative `setTimeout(timeout_s * 1000)`
into an absolute expiry). -/
def handleToolCall (st : WakeState) (input : ToolInput) (now : Nat) :
    ToolResult × WakeState × WakeAction :=
  match validateEvents input.events with
  | none =>
    ({ success := false,
       message := "events must be a non-empty array of event type strings" },
     st, WakeAction.idle)
  | some evs =>
    let timeout_s := input.timeout_s.getD 30
    let hadPendingWake := st.pendingWake
    let st' : WakeState :=
      { conditions := some { events := evs, timeout_s := timeout_s },
        timerExpiry := none, lastTriggerTime := st.lastTriggerTime,
        pendingWake := false }
    if hadPendingWake then
      ({ success := true,
         message := "Waking immediately — matching event(s) arrived during last inference. Will then sleep on: ["
           ++ jsJoinComma evs ++ "] or after " ++ toString timeout_s ++ "s." },
       st', WakeAction.immediateWake "pending-wake")
    else
      ({ success := true,
         message := "Sleeping. Will wake on: [" ++ jsJoinComma evs ++ "] or after "
           ++ toString timeout_s ++ "s." },
       { st' with timerExpiry := some (now + timeout_s * 1000) },
       WakeAction.armTimer "wake-timeout")

/-- Firing of the armed timeout timer: at any instant `t` at or past the
recorded expiry, the timer callback pushes the `wake-timeout` inference
request. -/
def timerFires (st : WakeState) (t : Nat) : Option InferenceRequest :=
  match st.timerExpiry with
  | none => none
  | some e => if e ≤ t then some wakeTimeoutEvent else none

/-! ### Startup environment check (`app/src/index.ts`, lobby agent entry point)

Both entry points compute `required.filter((key) => !process.env[key])` and,
when the result is non-empty, print the missing names and call
`process.exit(1)` before `AgentFramework.create` runs or the GameManager
subprocess is spawned. -/

/-- `!process.env[key]`: an environment value is missing when the variable is
unset (`undefined`) or set to the empty string (both falsy). -/
def jsEnvMissing : Option String → Bool
  | none => true
  | some s => s == ""

/-- `required` in `app/src/index.ts` (gameplay app). -/
def requiredGameplayEnv : List String := ["ANTHROPIC_API_KEY"]

/-- `required` in the lobby agent entry point. -/
def requiredLobbyEnv : List String := ["ANTHROPIC_API_KEY", "ZK_USERNAME", "ZK_PASSWORD"]

/-- `required.filter((key) => !process.env[key])`. -/
def missingEnv (env : String → Option String) (required : List String) : List String :=
  required.filter (fun k => jsEnvMissing (env k))

/-- Outcome of the module-level startup check: either the process exits with
the given code after printing the listed missing variables, or execution
proceeds into `main()` (framework creation, GameManager spawn). -/
inductive StartupOutcome where
  | exitWithCode (code : Nat) (missingPrinted : List String) : StartupOutcome
  | started : StartupOutcome

/-- `if (missing.length > 0) { console.error(...); process.exit(1); }`
followed by `main()`. -/
def startupCheck (env : String → Option String) (required : List String) : StartupOutcome :=
  let missing := missingEnv env required
  if missing.length > 0 then StartupOutcome.exitWithCode 1 missing
  else StartupOutcome.started

/-! ### Bootstrap widget (`LuaUI/Widgets/agent_bootstrap.lua`)

`widget:GameStart` looks the local player's name up in the loaded config's
`players` table and, when an entry exists, issues
`Spring.SendCommands("aicontrol " .. ai .. " " .. version)` with the entry's
fields defaulted through Lua `or` (only `nil`/`false` fall through, and a
JSON-decoded string field is a string or `nil`). -/

structure PlayerEntry where
  ai : Option String
  version : Option String

structure BootstrapConfig where
  players : List (String × PlayerEntry)

/-- The single in-engine command, if any, that `widget:GameStart` sends.
`config` is `none` when `widget:Initialize` found no (valid) config file. -/
def widgetGameStart (config : Option BootstrapConfig) (myName : String) : Option String :=
  match config with
  | none => none
  | some c =>
    match c.players.lookup myName with
    | some entry =>
      some ("aicontrol " ++ entry.ai.getD "AgentBridge" ++ " "
        ++ entry.version.getD "0.1")
    | none => none

/-! ### Engine Supervisor write-directory preparation -/

/-- An entry created inside a per-instance write directory. -/
inductive FsEntry where
  | dir (path : String) : FsEntry
  | file (path : String) : FsEntry
  | symlink (path : String) : FsEntry
deriving DecidableEq

/-- The six content symlinks into the user-shared content tree. -/
def contentLinks : List String :=
  ["pool", "packages", "maps", "games", "engine", "rapid"]

def bridgeAiDir : String := "AI/Skirmish/AgentBridge/0.1"

/-- Modelled from the spec: the engine-settings file written into the write
directory ("headless-compatible resolution, disabled audio"); the
game-manager Rust sources are not in the snapshot, and the repository's
`tests/local_game_test.sh` pins the concrete resolution line
`XResolution=1`. -/
def springsettingsCfg : List String :=
  ["XResolution=1", "YResolution=1", "NoSound=1"]

/-- Modelled from the spec: the Engine Supervisor's write-directory
preparation (`game-manager` Rust sources are not in the snapshot). The
layout follows spec §4.3/§6 "Write-directory layout" and the structure
checks of `game-manager/tests/local_game_test.sh`. `sourceExists` tells, for
each content name, whether its source exists in the shared content tree; a
missing source is non-fatal and yields a plain directory in place of the
symlink, the alternative the repository's test accepts. -/
def prepareWriteDir (sourceExists : String → Bool) : List FsEntry :=
  [ FsEntry.dir bridgeAiDir,
    FsEntry.file (bridgeAiDir ++ "/libSkirmishAI.so"),
    FsEntry.file (bridgeAiDir ++ "/AIInfo.lua"),
    FsEntry.file (bridgeAiDir ++ "/AIOptions.lua"),
    FsEntry.dir "LuaUI/Widgets",
    FsEntry.file "LuaUI/Widgets/agent_bootstrap.lua",
    FsEntry.dir "LuaUI/Config",
    FsEntry.file "LuaUI/Config/agent_bootstrap.json",
    FsEntry.dir "demos",
    FsEntry.dir "temp",
    FsEntry.file "springsettings.cfg" ]
  ++ contentLinks.map (fun n => if sourceExists n then FsEntry.symlink n else FsEntry.dir n)

/-! ### Bridge options metadata (`sai-bridge/data/AIOptions.lua`) -/

structure AIOption where
  key : String
  name : String
  desc : String
  ty : String
  defaultVal : String
deriving DecidableEq

/-- The `options` table returned by `AIOptions.lua`. -/
def aiOptions : List AIOption :=
  [ { key := "socket_path",
      name := "GameManager Socket Path",
      desc := "Unix socket path for IPC with GameManager",
      ty := "string",
      defaultVal := "/tmp/game-manager.sock" } ]

/-! ## Theorems -/

/-- C9: Before the first successful `set_conditions` call the wake conditions
are unset (`null`), and in that state `shouldTrigger` returns `true` for every
incoming message, whatever its content — no game event is silently dropped
before the agent has declared wake conditions. -/
theorem wake_initial_state_triggers_on_everything :
    initialWakeState.conditions = none ∧
    ∀ (st : WakeState) (body : Option Json) (now : Nat),
      st.conditions = none → shouldTrigger st body now = (true, st) := by
  refine ⟨rfl, ?_⟩
  intro st body now h
  simp [shouldTrigger, h]

/-- Witness for C9 at the fresh module state and a concrete message. -/
theorem wake_initial_state_triggers_on_everything_witness :
    shouldTrigger initialWakeState (some (Json.obj [("type", Json.str "update")])) 12345
      = (true, initialWakeState) :=
  wake_initial_state_triggers_on_everything.2 initialWakeState
    (some (Json.obj [("type", Json.str "update")])) 12345 rfl

/-- C8: A `set_conditions` call whose `events` argument is missing, not an
array, or an empty array returns a failure result and has no side effect:
the state — previously set conditions, running timer, pending-wake flag — is
returned unchanged and no timer or wake is scheduled. -/
theorem set_conditions_invalid_events_no_side_effect :
    ∀ (st : WakeState) (input : ToolInput) (now : Nat),
      validateEvents input.events = none →
      handleToolCall st input now =
        ({ success := false,
           message := "events must be a non-empty array of event type strings" },
         st, WakeAction.idle) := by
  intro st input now h
  simp [handleToolCall, h]

/-- Witness for C8: an empty `events` array, against a state holding earlier
conditions and a running timeout timer, leaves that state untouched. -/
theorem set_conditions_invalid_events_no_side_effect_witness :
    validateEvents (some (Json.arr [])) = none ∧
    handleToolCall
        { conditions := some { events := [Json.str "unit_idle"], timeout_s := 10 },
          timerExpiry := some 9000, lastTriggerTime := 100, pendingWake := false }
        { events := some (Json.arr []), timeout_s := some 5 } 8000
      = ({ success := false,
           message := "events must be a non-empty array of event type strings" },
         { conditions := some { events := [Json.str "unit_idle"], timeout_s := 10 },
           timerExpiry := some 9000, lastTriggerTime := 100, pendingWake := false },
         WakeAction.idle) :=
  ⟨rfl,
   set_conditions_invalid_events_no_side_effect
     { conditions := some { events := [Json.str "unit_idle"], timeout_s := 10 },
       timerExpiry := some 9000, lastTriggerTime := 100, pendingWake := false }
     { events := some (Json.arr []), timeout_s := some 5 } 8000 rfl⟩

/-- C10: A matching event arriving within 500 ms of the last wake trigger
does not trigger inference; it sets the pending-wake flag. The next
successful `set_conditions` call then succeeds with an immediate inference
request (reason `pending-wake`, `triggerInference` set) instead of arming the
timeout timer, clearing the pending flag — so a matching event arriving
during inference is not lost. -/
theorem wake_debounce_sets_pending_and_rewakes :
    (∀ (st : WakeState) (conds : WakeConditions) (body : Option Json) (now : Nat),
       st.conditions = some conds →
       contentMatches conds.events body = true →
       now - st.lastTriggerTime < DEBOUNCE_MS →
       shouldTrigger st body now = (false, { st with pendingWake := true })) ∧
    (∀ (st : WakeState) (input : ToolInput) (now : Nat) (evs : List Json),
       validateEvents input.events = some evs →
       st.pendingWake = true →
       (handleToolCall st input now).1.success = true ∧
       (handleToolCall st input now).2.2 = WakeAction.immediateWake "pending-wake" ∧
       (handleToolCall st input now).2.1.timerExpiry = none ∧
       (handleToolCall st input now).2.1.pendingWake = false ∧
       (handleToolCall st input now).2.1.conditions =
         some { events := evs, timeout_s := input.timeout_s.getD 30 } ∧
       pendingWakeEvent.reason = "pending-wake" ∧
       pendingWakeEvent.triggerInference = true) := by
  constructor
  · intro st conds body now h hm hd
    simp [shouldTrigger, h, hm, hd]
  · intro st input now evs hv hp
    simp [handleToolCall, hv, hp, pendingWakeEvent]

/-- Witness for C10: a matching `unit_idle` event 200 ms after the last
trigger only sets the pending flag; the following valid `set_conditions`
fires the immediate `pending-wake` request. -/
theorem wake_debounce_sets_pending_and_rewakes_witness :
    (contentMatches [Json.str "unit_idle"]
        (some (Json.obj [("type", Json.str "unit_idle")])) = true ∧
     1200 - 1000 < DEBOUNCE_MS ∧
     shouldTrigger
        { conditions := some { events := [Json.str "unit_idle"], timeout_s := 30 },
          timerExpiry := none, lastTriggerTime := 1000, pendingWake := false }
        (some (Json.obj [("type", Json.str "unit_idle")])) 1200
      = (false,
         { conditions := some { events := [Json.str "unit_idle"], timeout_s := 30 },
           timerExpiry := none, lastTriggerTime := 1000, pendingWake := true })) ∧
    (validateEvents (some (Json.arr [Json.str "enemy_enter_los"]))
        = some [Json.str "enemy_enter_los"] ∧
     (handleToolCall
        { conditions := some { events := [Json.str "unit_idle"], timeout_s := 30 },
          timerExpiry := none, lastTriggerTime := 1200, pendingWake := true }
        { events := some (Json.arr [Json.str "enemy_enter_los"]), timeout_s := some 20 }
        2000).2.2 = WakeAction.immediateWake "pending-wake") :=
  ⟨⟨rfl, by decide,
    wake_debounce_sets_pending_and_rewakes.1
      { conditions := some { events := [Json.str "unit_idle"], timeout_s := 30 },
        timerExpiry := none, lastTriggerTime := 1000, pendingWake := false }
      { events := [Json.str "unit_idle"], timeout_s := 30 }
      (some (Json.obj [("type", Json.str "unit_idle")])) 1200 rfl rfl (by decide)⟩,
   ⟨rfl,
    (wake_debounce_sets_pending_and_rewakes.2
      { conditions := some { events := [Json.str "unit_idle"], timeout_s := 30 },
        timerExpiry := none, lastTriggerTime := 1200, pendingWake := true }
      { events := some (Json.arr [Json.str "enemy_enter_los"]), timeout_s := some 20 }
      2000 [Json.str "enemy_enter_los"] rfl rfl).2.1⟩⟩

/-- C1 counterexample: a message whose JSON body's `type` field is in the
condition's event list does NOT trigger a wake when it arrives inside the
500 ms debounce window after the last trigger, refuting the unconditional
"a message whose type field is in the list triggers a wake". -/
theorem wake_matching_event_not_always_triggering :
    contentMatches [Json.str "unit_idle"]
        (some (Json.obj [("type", Json.str "unit_idle")])) = true ∧
    (shouldTrigger
        { conditions := some { events := [Json.str "unit_idle"], timeout_s := 30 },
          timerExpiry := none, lastTriggerTime := 1000, pendingWake := false }
        (some (Json.obj [("type", Json.str "unit_idle")])) 1200).1 = false := by
  constructor <;> rfl

/-- C1 (amended): After a successful `set_conditions` call with a non-empty
event list, a message whose JSON body's `type` field is in the list triggers
a wake provided it arrives at least 500 ms (the debounce window) after the
last wake trigger; a message whose `type` is not in the list never triggers;
and the call (when no wake is pending) arms the timeout timer for
`timeout_s` seconds — 30 when omitted — whose expiry pushes the
`wake-timeout` inference request. -/
theorem wake_conditions_contract :
    ∀ (st : WakeState) (conds : WakeConditions) (body : Option Json)
      (input : ToolInput) (evs : List Json) (now : Nat),
      st.conditions = some conds →
      st.pendingWake = false →
      validateEvents input.events = some evs →
      (contentMatches conds.events body = true →
         DEBOUNCE_MS ≤ now - st.lastTriggerTime →
         (shouldTrigger st body now).1 = true) ∧
      (contentMatches conds.events body = false →
         (shouldTrigger st body now).1 = false) ∧
      ((handleToolCall st input now).1.success = true ∧
       (handleToolCall st input now).2.1.conditions =
         some { events := evs, timeout_s := input.timeout_s.getD 30 } ∧
       (handleToolCall st input now).2.1.timerExpiry =
         some (now + (input.timeout_s.getD 30) * 1000) ∧
       (input.timeout_s = none →
         (handleToolCall st input now).2.1.timerExpiry = some (now + 30 * 1000)) ∧
       (∀ t, now + (input.timeout_s.getD 30) * 1000 ≤ t →
         timerFires (handleToolCall st input now).2.1 t = some wakeTimeoutEvent)) ∧
      wakeTimeoutEvent.reason = "wake-timeout" ∧
      wakeTimeoutEvent.triggerInference = true := by
  intro st conds body input evs now hc hp hv
  refine ⟨?_, ?_, ⟨?_, ?_, ?_, ?_, ?_⟩, rfl, rfl⟩
  · intro hm hd
    simp [shouldTrigger, hc, hm, Nat.not_lt.mpr hd]
  · intro hm
    simp [shouldTrigger, hc, hm]
  · simp [handleToolCall, hv, hp]
  · simp [handleToolCall, hv, hp]
  · simp [handleToolCall, hv, hp]
  · intro h30
    simp [handleToolCall, hv, hp, h30]
  · intro t ht
    simp [handleToolCall, hv, hp, timerFires, ht]

/-- Witness for C1 (amended) at concrete inputs: conditions on `unit_idle`,
a matching message 1000 ms after the last trigger, and a `set_conditions`
call with the timeout omitted. -/
theorem wake_conditions_contract_witness :
    ({ conditions := some { events := [Json.str "unit_idle"], timeout_s := 30 },
       timerExpiry := none, lastTriggerTime := 0,
       pendingWake := false : WakeState }.conditions
        = some { events := [Json.str "unit_idle"], timeout_s := 30 } ∧
     ({ conditions := some { events := [Json.str "unit_idle"], timeout_s := 30 },
        timerExpiry := none, lastTriggerTime := 0,
        pendingWake := false : WakeState }.pendingWake = false) ∧
     validateEvents (some (Json.arr [Json.str "unit_idle"]))
        = some [Json.str "unit_idle"]) ∧
    ((contentMatches [Json.str "unit_idle"]
        (some (Json.obj [("type", Json.str "unit_idle")])) = true →
      DEBOUNCE_MS ≤ 1000 -
        ({ conditions := some { events := [Json.str "unit_idle"], timeout_s := 30 },
           timerExpiry := none, lastTriggerTime := 0,
           pendingWake := false : WakeState }).lastTriggerTime →
      (shouldTrigger
        { conditions := some { events := [Json.str "unit_idle"], timeout_s := 30 },
          timerExpiry := none, lastTriggerTime := 0, pendingWake := false }
        (some (Json.obj [("type", Json.str "unit_idle")])) 1000).1 = true) ∧
     (contentMatches [Json.str "unit_idle"]
        (some (Json.obj [("type", Json.str "unit_idle")])) = false →
      (shouldTrigger
        { conditions := some { events := [Json.str "unit_idle"], timeout_s := 30 },
          timerExpiry := none, lastTriggerTime := 0, pendingWake := false }
        (some (Json.obj [("type", Json.str "unit_idle")])) 1000).1 = false) ∧
     ((handleToolCall
        { conditions := some { events := [Json.str "unit_idle"], timeout_s := 30 },
          timerExpiry := none, lastTriggerTime := 0, pendingWake := false }
        { events := some (Json.arr [Json.str "unit_idle"]), timeout_s := none }
        1000).1.success = true ∧
      (handleToolCall
        { conditions := some { events := [Json.str "unit_idle"], timeout_s := 30 },
          timerExpiry := none, lastTriggerTime := 0, pendingWake := false }
        { events := some (Json.arr [Json.str "unit_idle"]), timeout_s := none }
        1000).2.1.conditions =
        some { events := [Json.str "unit_idle"],
               timeout_s := (none : Option Nat).getD 30 } ∧
      (handleToolCall
        { conditions := some { events := [Json.str "unit_idle"], timeout_s := 30 },
          timerExpiry := none, lastTriggerTime := 0, pendingWake := false }
        { events := some (Json.arr [Json.str "unit_idle"]), timeout_s := none }
        1000).2.1.timerExpiry = some (1000 + ((none : Option Nat).getD 30) * 1000) ∧
      ((none : Option Nat) = none →
        (handleToolCall
          { conditions := some { events := [Json.str "unit_idle"], timeout_s := 30 },
            timerExpiry := none, lastTriggerTime := 0, pendingWake := false }
          { events := some (Json.arr [Json.str "unit_idle"]), timeout_s := none }
          1000).2.1.timerExpiry = some (1000 + 30 * 1000)) ∧
      (∀ t, 1000 + ((none : Option Nat).getD 30) * 1000 ≤ t →
        timerFires
          (handleToolCall
            { conditions := some { events := [Json.str "unit_idle"], timeout_s := 30 },
              timerExpiry := none, lastTriggerTime := 0, pendingWake := false }
            { events := some (Json.arr [Json.str "unit_idle"]), timeout_s := none }
            1000).2.1 t = some wakeTimeoutEvent)) ∧
     wakeTimeoutEvent.reason = "wake-timeout" ∧
     wakeTimeoutEvent.triggerInference = true) :=
  ⟨⟨rfl, rfl, rfl⟩,
   wake_conditions_contract
     { conditions := some { events := [Json.str "unit_idle"], timeout_s := 30 },
       timerExpiry := none, lastTriggerTime := 0, pendingWake := false }
     { events := [Json.str "unit_idle"], timeout_s := 30 }
     (some (Json.obj [("type", Json.str "unit_idle")]))
     { events := some (Json.arr [Json.str "unit_idle"]), timeout_s := none }
     [Json.str "unit_idle"] 1000 rfl rfl rfl⟩

/-- C6: When a required environment variable is unset at startup — for the
gameplay app, `ANTHROPIC_API_KEY` — the program reports exactly which
variables are missing and exits with code 1 instead of proceeding to start
the framework or spawn the GameManager; the lobby agent's check behaves the
same way for its required set. -/
theorem missing_env_var_exits_with_code_one :
    ∀ (env : String → Option String),
      jsEnvMissing (env "ANTHROPIC_API_KEY") = true →
      startupCheck env requiredGameplayEnv
          = StartupOutcome.exitWithCode 1 ["ANTHROPIC_API_KEY"] ∧
      ∃ m, startupCheck env requiredLobbyEnv = StartupOutcome.exitWithCode 1 m ∧
        "ANTHROPIC_API_KEY" ∈ m := by
  intro env h
  constructor
  · simp [startupCheck, missingEnv, requiredGameplayEnv, h]
  · have hm : "ANTHROPIC_API_KEY" ∈ missingEnv env requiredLobbyEnv :=
      List.mem_filter.mpr ⟨by simp [requiredLobbyEnv], h⟩
    refine ⟨missingEnv env requiredLobbyEnv, ?_, hm⟩
    have hlen : 0 < (missingEnv env requiredLobbyEnv).length :=
      List.length_pos.mpr (List.ne_nil_of_mem hm)
    simp [startupCheck, hlen]

/-- Witness for C6 at an entirely empty environment. -/
theorem missing_env_var_exits_with_code_one_witness :
    jsEnvMissing ((fun _ => (none : Option String)) "ANTHROPIC_API_KEY") = true ∧
    (startupCheck (fun _ => none) requiredGameplayEnv
        = StartupOutcome.exitWithCode 1 ["ANTHROPIC_API_KEY"] ∧
     ∃ m, startupCheck (fun _ => none) requiredLobbyEnv
        = StartupOutcome.exitWithCode 1 m ∧ "ANTHROPIC_API_KEY" ∈ m) :=
  ⟨rfl, missing_env_var_exits_with_code_one (fun _ => none) rfl⟩

/-- C4: On `GameStart` the bootstrap widget hands team control to the
Bridge: when the local player's name has an entry in the config's `players`
table it issues `aicontrol <ai> <version>` using the entry's fields
(defaulting to `AgentBridge` `0.1` when they are absent), and when the name
has no entry it issues no command. -/
theorem bootstrap_widget_game_start_handoff :
    ∀ (c : BootstrapConfig) (myName : String),
      (∀ entry, c.players.lookup myName = some entry →
         widgetGameStart (some c) myName =
           some ("aicontrol " ++ entry.ai.getD "AgentBridge" ++ " "
             ++ entry.version.getD "0.1")) ∧
      (c.players.lookup myName = none → widgetGameStart (some c) myName = none) ∧
      (∀ entry, c.players.lookup myName = some entry → entry.ai = none →
         entry.version = none →
         widgetGameStart (some c) myName = some "aicontrol AgentBridge 0.1") := by
  intro c myName
  refine ⟨?_, ?_, ?_⟩
  · intro entry h
    simp [widgetGameStart, h]
  · intro h
    simp [widgetGameStart, h]
  · intro entry h ha hv
    simp [widgetGameStart, h, ha, hv]

/-- Witness for C4: a one-entry config with both fields absent yields
`aicontrol AgentBridge 0.1`; a name with no entry yields no command. -/
theorem bootstrap_widget_game_start_handoff_witness :
    ((BootstrapConfig.mk [("Shade", PlayerEntry.mk none none)]).players.lookup "Shade"
        = some (PlayerEntry.mk none none) ∧
     widgetGameStart (some (BootstrapConfig.mk [("Shade", PlayerEntry.mk none none)])) "Shade"
        = some "aicontrol AgentBridge 0.1") ∧
    ((BootstrapConfig.mk [("Shade", PlayerEntry.mk none none)]).players.lookup "Observer"
        = none ∧
     widgetGameStart (some (BootstrapConfig.mk [("Shade", PlayerEntry.mk none none)])) "Observer"
        = none) :=
  ⟨⟨rfl,
    (bootstrap_widget_game_start_handoff
      (BootstrapConfig.mk [("Shade", PlayerEntry.mk none none)]) "Shade").2.2
      (PlayerEntry.mk none none) rfl rfl rfl⟩,
   ⟨rfl,
    (bootstrap_widget_game_start_handoff
      (BootstrapConfig.mk [("Shade", PlayerEntry.mk none none)]) "Observer").2.1 rfl⟩⟩

/-- C2: When every content source exists in the shared tree, the prepared
per-instance write directory contains `AI/Skirmish/AgentBridge/0.1` with the
shared library and both metadata files, `LuaUI/Widgets` with the bootstrap
widget, `LuaUI/Config` with the bootstrap config, `demos`, `temp`, the
engine-settings file, and the six content symlinks `pool`, `packages`,
`maps`, `games`, `engine`, `rapid`. -/
theorem write_dir_layout_complete :
    ∀ (sourceExists : String → Bool),
      contentLinks.all sourceExists = true →
      FsEntry.dir "AI/Skirmish/AgentBridge/0.1" ∈ prepareWriteDir sourceExists ∧
      FsEntry.file "AI/Skirmish/AgentBridge/0.1/libSkirmishAI.so"
        ∈ prepareWriteDir sourceExists ∧
      FsEntry.file "AI/Skirmish/AgentBridge/0.1/AIInfo.lua"
        ∈ prepareWriteDir sourceExists ∧
      FsEntry.file "AI/Skirmish/AgentBridge/0.1/AIOptions.lua"
        ∈ prepareWriteDir sourceExists ∧
      FsEntry.dir "LuaUI/Widgets" ∈ prepareWriteDir sourceExists ∧
      FsEntry.file "LuaUI/Widgets/agent_bootstrap.lua" ∈ prepareWriteDir sourceExists ∧
      FsEntry.dir "LuaUI/Config" ∈ prepareWriteDir sourceExists ∧
      FsEntry.file "LuaUI/Config/agent_bootstrap.json" ∈ prepareWriteDir sourceExists ∧
      FsEntry.dir "demos" ∈ prepareWriteDir sourceExists ∧
      FsEntry.dir "temp" ∈ prepareWriteDir sourceExists ∧
      FsEntry.file "springsettings.cfg" ∈ prepareWriteDir sourceExists ∧
      ∀ n ∈ contentLinks, FsEntry.symlink n ∈ prepareWriteDir sourceExists := by
  intro f h
  have hall : ∀ n ∈ contentLinks, f n = true := by
    simpa using List.all_eq_true.mp h
  have hmap : contentLinks.map (fun n => if f n then FsEntry.symlink n else FsEntry.dir n)
      = contentLinks.map FsEntry.symlink :=
    List.map_congr_left (fun n hn => by simp [hall n hn])
  have hconc : prepareWriteDir f
      = [ FsEntry.dir bridgeAiDir,
          FsEntry.file (bridgeAiDir ++ "/libSkirmishAI.so"),
          FsEntry.file (bridgeAiDir ++ "/AIInfo.lua"),
          FsEntry.file (bridgeAiDir ++ "/AIOptions.lua"),
          FsEntry.dir "LuaUI/Widgets",
          FsEntry.file "LuaUI/Widgets/agent_bootstrap.lua",
          FsEntry.dir "LuaUI/Config",
          FsEntry.file "LuaUI/Config/agent_bootstrap.json",
          FsEntry.dir "demos",
          FsEntry.dir "temp",
          FsEntry.file "springsettings.cfg" ]
        ++ contentLinks.map FsEntry.symlink := by
    unfold prepareWriteDir
    rw [hmap]
  simp only [hconc]
  decide

/-- Witness for C2 with every content source present. -/
theorem write_dir_layout_complete_witness :
    contentLinks.all (fun _ => true) = true ∧
    (FsEntry.dir "AI/Skirmish/AgentBridge/0.1" ∈ prepareWriteDir (fun _ => true) ∧
     FsEntry.file "AI/Skirmish/AgentBridge/0.1/libSkirmishAI.so"
       ∈ prepareWriteDir (fun _ => true) ∧
     FsEntry.file "AI/Skirmish/AgentBridge/0.1/AIInfo.lua"
       ∈ prepareWriteDir (fun _ => true) ∧
     FsEntry.file "AI/Skirmish/AgentBridge/0.1/AIOptions.lua"
       ∈ prepareWriteDir (fun _ => true) ∧
     FsEntry.dir "LuaUI/Widgets" ∈ prepareWriteDir (fun _ => true) ∧
     FsEntry.file "LuaUI/Widgets/agent_bootstrap.lua" ∈ prepareWriteDir (fun _ => true) ∧
     FsEntry.dir "LuaUI/Config" ∈ prepareWriteDir (fun _ => true) ∧
     FsEntry.file "LuaUI/Config/agent_bootstrap.json" ∈ prepareWriteDir (fun _ => true) ∧
     FsEntry.dir "demos" ∈ prepareWriteDir (fun _ => true) ∧
     FsEntry.dir "temp" ∈ prepareWriteDir (fun _ => true) ∧
     FsEntry.file "springsettings.cfg" ∈ prepareWriteDir (fun _ => true) ∧
     ∀ n ∈ contentLinks, FsEntry.symlink n ∈ prepareWriteDir (fun _ => true)) :=
  ⟨by decide, write_dir_layout_complete (fun _ => true) (by decide)⟩

/-- C5: Write-directory preparation succeeds whatever content sources are
missing: for every content entry the prepared tree still holds an entry
under that name (a symlink when the source exists, otherwise a plain
directory), and the rest of the directory tree is created regardless. -/
theorem write_dir_missing_source_non_fatal :
    ∀ (sourceExists : String → Bool) (n : String),
      n ∈ contentLinks →
      (FsEntry.symlink n ∈ prepareWriteDir sourceExists ∨
       FsEntry.dir n ∈ prepareWriteDir sourceExists) ∧
      FsEntry.dir "AI/Skirmish/AgentBridge/0.1" ∈ prepareWriteDir sourceExists ∧
      FsEntry.dir "LuaUI/Widgets" ∈ prepareWriteDir sourceExists ∧
      FsEntry.dir "LuaUI/Config" ∈ prepareWriteDir sourceExists ∧
      FsEntry.dir "demos" ∈ prepareWriteDir sourceExists ∧
      FsEntry.dir "temp" ∈ prepareWriteDir sourceExists := by
  intro f n hn
  constructor
  · have hmem : (if f n then FsEntry.symlink n else FsEntry.dir n) ∈
        contentLinks.map (fun m => if f m then FsEntry.symlink m else FsEntry.dir m) :=
      List.mem_map_of_mem _ hn
    have hmem' : (if f n then FsEntry.symlink n else FsEntry.dir n)
        ∈ prepareWriteDir f := by
      unfold prepareWriteDir
      exact List.mem_append_right _ hmem
    cases hf : f n with
    | true => exact Or.inl (by simpa [hf] using hmem')
    | false => exact Or.inr (by simpa [hf] using hmem')
  · refine ⟨?_, ?_, ?_, ?_, ?_⟩ <;>
      exact List.mem_append_left _ (by decide)

/-- Witness for C5 with every content source missing, at entry `pool`. -/
theorem write_dir_missing_source_non_fatal_witness :
    "pool" ∈ contentLinks ∧
    ((FsEntry.symlink "pool" ∈ prepareWriteDir (fun _ => false) ∨
      FsEntry.dir "pool" ∈ prepareWriteDir (fun _ => false)) ∧
     FsEntry.dir "AI/Skirmish/AgentBridge/0.1" ∈ prepareWriteDir (fun _ => false) ∧
     FsEntry.dir "LuaUI/Widgets" ∈ prepareWriteDir (fun _ => false) ∧
     FsEntry.dir "LuaUI/Config" ∈ prepareWriteDir (fun _ => false) ∧
     FsEntry.dir "demos" ∈ prepareWriteDir (fun _ => false) ∧
     FsEntry.dir "temp" ∈ prepareWriteDir (fun _ => false)) :=
  ⟨by decide, write_dir_missing_source_non_fatal (fun _ => false) "pool" (by decide)⟩

/-- C7: Write-directory preparation writes the engine settings file
`springsettings.cfg`, and its content carries the headless-compatible
resolution setting `XResolution=1` (with audio disabled). -/
theorem springsettings_headless_resolution :
    "XResolution=1" ∈ springsettingsCfg ∧
    "NoSound=1" ∈ springsettingsCfg ∧
    ∀ (sourceExists : String → Bool),
      FsEntry.file "springsettings.cfg" ∈ prepareWriteDir sourceExists := by
  refine ⟨by decide, by decide, ?_⟩
  intro f
  exact List.mem_append_left _ (by decide)

/-- C3 counterexample: the `socket_path` option's default in
`AIOptions.lua` is the fixed path `/tmp/game-manager.sock`; it does not even
start with the per-token prefix `/tmp/game-manager-`, so it is not the
per-token path `/tmp/game-manager-<token>.sock` for any token. -/
theorem socket_path_default_not_per_token :
    aiOptions.map AIOption.key = ["socket_path"] ∧
    aiOptions.map AIOption.defaultVal = ["/tmp/game-manager.sock"] ∧
    "/tmp/game-manager.sock".take 18 = "/tmp/game-manager." ∧
    "/tmp/game-manager." ≠ "/tmp/game-manager-" := by
  refine ⟨rfl, rfl, rfl, by decide⟩

/-- C3 (amended): The Bridge IPC socket path is configurable per instance
through the `socket_path` string option declared in `AIOptions.lua`, and its
default value is the fixed path `/tmp/game-manager.sock`. -/
theorem socket_path_option_configurable_fixed_default :
    ∃ opt ∈ aiOptions, opt.key = "socket_path" ∧ opt.ty = "string" ∧
      opt.defaultVal = "/tmp/game-manager.sock" := by
  exact ⟨aiOptions.head (by decide), by decide, rfl, rfl, rfl⟩

end ZkSpec
